import Mathlib

/-!
Shallow embedding of the express-js-chess-x402 gateway.

Embedded source:
- `src/lib/schema.ts` (`inputSchemaToX402GET`, `inputSchemaToX402POST`, `zodToJsonSchema`)
- the legacy compiled converter `inputSchemaToX402` from the bundled artifact
- `src/index.ts`: the zod `inputSchema` / `responseSchema`, `getBestMove`, and the
  `GET /best-move` route handler.

JavaScript objects coming out of `z.toJSONSchema` / `JSON.parse` are modelled as a
`JSON` inductive whose objects are ordered association lists (JS objects preserve
insertion order and have unique keys).  JSON numbers are modelled as rationals.
The zod library itself (`z.toJSONSchema`) is an external dependency: converter
functions are embedded from the point where the translated JSON-schema
`properties` object is in hand.  The upstream HTTP fetch is modelled by an oracle
`HttpResp` describing what the single outbound call returns for the request.
-/

/-- JSON values.  JS `undefined` is not a JSON value: keys are present or absent. -/
inductive JSON where
  | null : JSON
  | bool : Bool → JSON
  | num : Rat → JSON
  | str : String → JSON
  | arr : List JSON → JSON
  | obj : List (String × JSON) → JSON

mutual

/-- Decidable equality on `JSON` (the automatic derivation does not handle the
nested `List` occurrences). -/
def JSON.decEq : (a b : JSON) → Decidable (a = b)
  | .null, .null => isTrue rfl
  | .bool a, .bool b =>
      match instDecidableEqBool a b with
      | isTrue h => isTrue (h ▸ rfl)
      | isFalse h => isFalse (fun hh => h (by cases hh; rfl))
  | .num a, .num b =>
      match inferInstanceAs (Decidable (a = b)) with
      | isTrue h => isTrue (h ▸ rfl)
      | isFalse h => isFalse (fun hh => h (by cases hh; rfl))
  | .str a, .str b =>
      match String.decEq a b with
      | isTrue h => isTrue (h ▸ rfl)
      | isFalse h => isFalse (fun hh => h (by cases hh; rfl))
  | .arr a, .arr b =>
      match JSON.decEqList a b with
      | isTrue h => isTrue (h ▸ rfl)
      | isFalse h => isFalse (fun hh => h (by cases hh; rfl))
  | .obj a, .obj b =>
      match JSON.decEqObj a b with
      | isTrue h => isTrue (h ▸ rfl)
      | isFalse h => isFalse (fun hh => h (by cases hh; rfl))
  | .null, .bool _ => isFalse (fun h => JSON.noConfusion h)
  | .null, .num _ => isFalse (fun h => JSON.noConfusion h)
  | .null, .str _ => isFalse (fun h => JSON.noConfusion h)
  | .null, .arr _ => isFalse (fun h => JSON.noConfusion h)
  | .null, .obj _ => isFalse (fun h => JSON.noConfusion h)
  | .bool _, .null => isFalse (fun h => JSON.noConfusion h)
  | .bool _, .num _ => isFalse (fun h => JSON.noConfusion h)
  | .bool _, .str _ => isFalse (fun h => JSON.noConfusion h)
  | .bool _, .arr _ => isFalse (fun h => JSON.noConfusion h)
  | .bool _, .obj _ => isFalse (fun h => JSON.noConfusion h)
  | .num _, .null => isFalse (fun h => JSON.noConfusion h)
  | .num _, .bool _ => isFalse (fun h => JSON.noConfusion h)
  | .num _, .str _ => isFalse (fun h => JSON.noConfusion h)
  | .num _, .arr _ => isFalse (fun h => JSON.noConfusion h)
  | .num _, .obj _ => isFalse (fun h => JSON.noConfusion h)
  | .str _, .null => isFalse (fun h => JSON.noConfusion h)
  | .str _, .bool _ => isFalse (fun h => JSON.noConfusion h)
  | .str _, .num _ => isFalse (fun h => JSON.noConfusion h)
  | .str _, .arr _ => isFalse (fun h => JSON.noConfusion h)
  | .str _, .obj _ => isFalse (fun h => JSON.noConfusion h)
  | .arr _, .null => isFalse (fun h => JSON.noConfusion h)
  | .arr _, .bool _ => isFalse (fun h => JSON.noConfusion h)
  | .arr _, .num _ => isFalse (fun h => JSON.noConfusion h)
  | .arr _, .str _ => isFalse (fun h => JSON.noConfusion h)
  | .arr _, .obj _ => isFalse (fun h => JSON.noConfusion h)
  | .obj _, .null => isFalse (fun h => JSON.noConfusion h)
  | .obj _, .bool _ => isFalse (fun h => JSON.noConfusion h)
  | .obj _, .num _ => isFalse (fun h => JSON.noConfusion h)
  | .obj _, .str _ => isFalse (fun h => JSON.noConfusion h)
  | .obj _, .arr _ => isFalse (fun h => JSON.noConfusion h)

/-- Decidable equality on lists of `JSON`. -/
def JSON.decEqList : (a b : List JSON) → Decidable (a = b)
  | [], [] => isTrue rfl
  | [], _ :: _ => isFalse (fun h => List.noConfusion h)
  | _ :: _, [] => isFalse (fun h => List.noConfusion h)
  | x :: xs, y :: ys =>
      match JSON.decEq x y with
      | isFalse h => isFalse (fun hh => h (by cases hh; rfl))
      | isTrue h1 =>
          match JSON.decEqList xs ys with
          | isTrue h2 => isTrue (by rw [h1, h2])
          | isFalse h => isFalse (fun hh => h (by cases hh; rfl))

/-- Decidable equality on JSON objects (key-value lists). -/
def JSON.decEqObj : (a b : List (String × JSON)) → Decidable (a = b)
  | [], [] => isTrue rfl
  | [], _ :: _ => isFalse (fun h => List.noConfusion h)
  | _ :: _, [] => isFalse (fun h => List.noConfusion h)
  | (k1, v1) :: xs, (k2, v2) :: ys =>
      match String.decEq k1 k2 with
      | isFalse h => isFalse (fun hh => h (by cases hh; rfl))
      | isTrue hk =>
          match JSON.decEq v1 v2 with
          | isFalse h => isFalse (fun hh => h (by cases hh; rfl))
          | isTrue hv =>
              match JSON.decEqObj xs ys with
              | isTrue ht => isTrue (by rw [hk, hv, ht])
              | isFalse h => isFalse (fun hh => h (by cases hh; rfl))

end

instance : DecidableEq JSON := JSON.decEq

/-- JS property read `o[k]`: first (only, for JS objects) binding of `k`. -/
def getKey (o : List (String × JSON)) (k : String) : Option JSON :=
  (o.find? (fun p => p.1 = k)).map Prod.snd

/-- JS property write `o[k] = v`: replaces the binding in place if the key
exists, otherwise appends it at the end (JS insertion-order semantics). -/
def setKey (o : List (String × JSON)) (k : String) (v : JSON) : List (String × JSON) :=
  if o.any (fun p => p.1 = k) then o.map (fun p => if p.1 = k then (k, v) else p)
  else o ++ [(k, v)]

/-- `"default" in value && value.default !== undefined` from
`inputSchemaToX402GET`.  A JSON value bound to `default` is never `undefined`,
so presence of the key is the whole condition. -/
def hasDefaultKey (fields : List (String × JSON)) : Bool :=
  (getKey fields "default").isSome

/-- Result shape of the GET discovery-descriptor converter:
`{ type: "http", method: "GET", queryParams }`. -/
structure X402GET where
  type : String
  method : String
  queryParams : List (String × JSON)
deriving DecidableEq

/-- `inputSchemaToX402GET` from `src/lib/schema.ts`, embedded from the point
where `jsonSchema.properties` (the zod-to-JSON-schema translation of the input
shape) is available.  For each entry with `typeof value === "object" && value
!== null` the source copies the per-field schema object into `queryParams` and
then assigns `queryParams[key].required = !hasDefault`.  A JSON array also
satisfies the `typeof` guard; setting a named property on it is invisible to
JSON serialization, so the array is kept unchanged.  Primitive or null property
values are skipped. -/
def inputSchemaToX402GET (properties : List (String × JSON)) : X402GET where
  type := "http"
  method := "GET"
  queryParams := properties.filterMap (fun p =>
    match p.2 with
    | JSON.obj fields =>
        some (p.1, JSON.obj (setKey fields "required" (JSON.bool (!hasDefaultKey fields))))
    | JSON.arr a => some (p.1, JSON.arr a)
    | _ => none)

/-- The `x || fallback` idiom on a string-valued JSON-schema field: yields the
string when the key is present and bound to a non-empty string, otherwise
nothing.  (zod-generated schemas only ever put strings in `type` /
`description`, so non-string truthy values do not arise.) -/
def truthyStr (v : Option JSON) : Option String :=
  match v with
  | some (JSON.str s) => if s = "" then none else some s
  | _ => none

/-- Result shape of the legacy converter: `queryParams` maps each parameter
name to a plain description string. -/
structure X402GETLegacy where
  type : String
  method : String
  queryParams : List (String × String)
deriving DecidableEq

/-- Legacy `inputSchemaToX402` from the bundled build artifact: for each
object-valued per-field schema it computes `type = prop.type || "string"`,
`description = prop.description || ""` and emits
`queryParams[key] = description || type ++ " parameter"`.  An array-valued
property has neither a `type` nor a `description` JS property, so it yields
`"string parameter"`. -/
def inputSchemaToX402 (properties : List (String × JSON)) : X402GETLegacy where
  type := "http"
  method := "GET"
  queryParams := properties.filterMap (fun p =>
    match p.2 with
    | JSON.obj fields =>
        let ty := (truthyStr (getKey fields "type")).getD "string"
        match truthyStr (getKey fields "description") with
        | some d => some (p.1, d)
        | none => some (p.1, ty ++ " parameter")
    | JSON.arr _ => some (p.1, "string parameter")
    | _ => none)

/-- The `GET /best-move` query as seen by `req.query`: express delivers each
present query parameter as a string.  Parameters other than `fen` and `depth`
are ignored by the zod parse (unknown keys are stripped) and by the handler. -/
structure Query where
  fen : Option String
  depth : Option String
deriving DecidableEq

/-- `inputSchema.safeParse(req.query)` for
`z.object({ fen: z.string(), depth: z.string().min(1).max(2).default("10") })`:
`fen` must be present; a missing `depth` takes the default `"10"`; a present
`depth` must have length in [1,2] (zod `min`/`max` on strings are length
bounds).  `none` models `success: false`. -/
def inputSchemaParse (q : Query) : Option (String × String) :=
  match q.fen with
  | none => none
  | some f =>
      match q.depth with
      | none => some (f, "10")
      | some d => if 1 ≤ d.length ∧ d.length ≤ 2 then some (f, d) else none

/-- Digit value of a character under radix `base` (10 or 16), as in JS
`parseInt` digit scanning. -/
def digitValue (base : Nat) (c : Char) : Option Nat :=
  if '0' ≤ c ∧ c ≤ '9' ∧ c.toNat - '0'.toNat < base then some (c.toNat - '0'.toNat)
  else if base = 16 ∧ 'a' ≤ c ∧ c ≤ 'f' then some (c.toNat - 'a'.toNat + 10)
  else if base = 16 ∧ 'A' ≤ c ∧ c ≤ 'F' then some (c.toNat - 'A'.toNat + 10)
  else none

/-- Longest prefix of digit values under `base`. -/
def leadingDigits (base : Nat) : List Char → List Nat
  | [] => []
  | c :: rest =>
      match digitValue base c with
      | some d => d :: leadingDigits base rest
      | none => []

/-- JS `parseInt(s)` (radix argument omitted): skip leading whitespace, read an
optional sign, switch to base 16 after a `0x`/`0X` prefix, then take the longest
prefix of digits; no digits means `NaN`, modelled as `none`.  (Exotic Unicode
whitespace is not modelled.) -/
def jsParseInt (s : String) : Option Int :=
  let cs := s.toList.dropWhile fun c =>
    c == ' ' || c == '\t' || c == '\n' || c == '\r' || c == '\x0b' || c == '\x0c'
  let signed : Int × List Char :=
    match cs with
    | '-' :: rest => (-1, rest)
    | '+' :: rest => (1, rest)
    | _ => (1, cs)
  let based : Nat × List Char :=
    match signed.2 with
    | '0' :: 'x' :: rest => (16, rest)
    | '0' :: 'X' :: rest => (16, rest)
    | _ => (10, signed.2)
  let ds := leadingDigits based.1 based.2
  if ds.isEmpty then none
  else some (signed.1 * (ds.foldl (fun acc d => acc * based.1 + d) 0 : Nat))

/-- A validated analysis result, the output of
`responseSchema.parse`: `success` is forced to the literal `true` and carries
no data; `mate` is `number | null`. -/
structure AnalysisResult where
  evaluation : Rat
  bestmove : String
  mate : Option Rat
deriving DecidableEq

/-- `responseSchema.parse(data)` for
`z.object({ success: z.literal(true), evaluation: z.number(), bestmove:
z.string(), mate: z.number().nullable() })`: the body must be an object whose
`success` is literally `true`, `evaluation` a number, `bestmove` a string and
`mate` null or a number; `none` models a thrown `ZodError`.  Unknown keys are
stripped, not rejected (zod object schemas default to strip mode). -/
def parseAnalysis (j : JSON) : Option AnalysisResult :=
  match j with
  | JSON.obj fields =>
      match getKey fields "success" with
      | some (JSON.bool true) =>
          match getKey fields "evaluation" with
          | some (JSON.num e) =>
              match getKey fields "bestmove" with
              | some (JSON.str b) =>
                  match getKey fields "mate" with
                  | some JSON.null => some ⟨e, b, none⟩
                  | some (JSON.num m) => some ⟨e, b, some m⟩
                  | _ => none
              | _ => none
          | _ => none
      | _ => none
  | _ => none

/-- The JSON object `res.json` serializes for a validated result: zod's parse
output holds exactly the schema's keys, in schema declaration order. -/
def AnalysisResult.toJSON (r : AnalysisResult) : JSON :=
  JSON.obj [("success", JSON.bool true),
            ("evaluation", JSON.num r.evaluation),
            ("bestmove", JSON.str r.bestmove),
            ("mate", match r.mate with | none => JSON.null | some m => JSON.num m)]

/-- Oracle for the single outbound `fetch` of a request: the HTTP status and
status text of the upstream response, and `jsonBody = none` when
`response.json()` rejects (non-JSON body). -/
structure HttpResp where
  status : Nat
  statusText : String
  jsonBody : Option JSON

/-- `response.ok` per the fetch spec: status in the range 200-299. -/
def respOk (r : HttpResp) : Bool :=
  200 ≤ r.status && r.status < 300

/-- The exceptions that can escape `getBestMove` or the response send.  The
message texts of `jsonSyntaxError` / `zodError` are produced by the JS engine /
zod library and are not modelled precisely; no claim depends on them. -/
inductive JsError where
  | upstreamError (status : Nat) (statusText : String)
  | jsonSyntaxError
  | zodError
  | postSendError
deriving DecidableEq

/-- `error.message` (every modelled error is an `instanceof Error`).  The
`upstreamError` text embeds the template literal from `getBestMove`. -/
def JsError.message : JsError → String
  | JsError.upstreamError st stx => "Stockfish API returned " ++ (toString st ++ (": " ++ stx))
  | JsError.jsonSyntaxError => "Unexpected token in JSON"
  | JsError.zodError => "Invalid input"
  | JsError.postSendError => "stream error after response sent"

/-- `getBestMove(fen, depth)` from `src/index.ts`, with the outbound call
replaced by the `resp` oracle (the URL construction does not affect any claim):
a non-ok status throws the `Stockfish API returned ...` error; otherwise the
body is JSON-parsed and validated by `responseSchema.parse`, whose failure
throws a `ZodError`.  The function's own catch block only logs and rethrows. -/
def getBestMove (resp : HttpResp) : Except JsError AnalysisResult :=
  if respOk resp = false then Except.error (JsError.upstreamError resp.status resp.statusText)
  else
    match resp.jsonBody with
    | none => Except.error JsError.jsonSyntaxError
    | some j =>
        match parseAnalysis j with
        | none => Except.error JsError.zodError
        | some r => Except.ok r

/-- JSON string escaping as done by `JSON.stringify` for the characters that
can appear here. -/
def jsonEscape (s : String) : String :=
  s.foldl (fun acc c =>
    acc ++ (if c = '"' then "\\\""
            else if c = '\\' then "\\\\"
            else if c = '\n' then "\\n"
            else if c = '\r' then "\\r"
            else if c = '\t' then "\\t"
            else String.singleton c)) ""

/-- A JSON string literal. -/
def quoted (s : String) : String := "\"" ++ jsonEscape s ++ "\""

/-- `JSON.stringify(req.query)` for the modelled query object. -/
def stringifyQuery (q : Query) : String :=
  let entries :=
    (match q.fen with | some f => [("fen", f)] | none => []) ++
    (match q.depth with | some d => [("depth", d)] | none => [])
  "\x7b" ++ String.intercalate "," (entries.map fun p => quoted p.1 ++ ":" ++ quoted p.2) ++ "\x7d"

/-- The 400 body for a failed `safeParse`. -/
def badParamsBody (q : Query) : JSON :=
  JSON.obj [("error", JSON.str ("Invalid request parameters, " ++ stringifyQuery q))]

/-- The 400 body for an out-of-range or non-numeric depth. -/
def badDepthBody (d : String) : JSON :=
  JSON.obj [("error", JSON.str ("Invalid depth, must be a number between 1 and 12, got " ++ d))]

/-- The 500 body from the handler's catch block:
`{ error: "Internal server error", message: error.message }`. -/
def serverErrorBody (e : JsError) : JSON :=
  JSON.obj [("error", JSON.str "Internal server error"), ("message", JSON.str e.message)]

/-- One HTTP response write: status code and JSON body. -/
structure Sent where
  status : Nat
  body : JSON
deriving DecidableEq

/-- Observable outcome of one handler run: every response write, in order, and
whether the upstream service was called. -/
structure HandlerOutcome where
  writes : List Sent
  upstreamCalled : Bool
deriving DecidableEq

/-- The `GET /best-move` route handler from `src/index.ts`.  `resp` is the
oracle for the upstream call; `sendThrows` models a send inside the `try` block
throwing after the response bytes are out (`headersSent` already true), the
scenario the `res.headersSent` guard in the catch block is for.  The catch
block writes a 500 only when nothing has been sent yet (`ws.isEmpty` is exactly
`!res.headersSent`). -/
def bestMoveHandler (q : Query) (resp : HttpResp) (sendThrows : Bool) : HandlerOutcome :=
  let thrown : Option JsError := if sendThrows then some JsError.postSendError else none
  let tryResult : List Sent × Bool × Option JsError :=
    match inputSchemaParse q with
    | none => ([⟨400, badParamsBody q⟩], false, thrown)
    | some fd =>
        match jsParseInt fd.2 with
        | none => ([⟨400, badDepthBody fd.2⟩], false, thrown)
        | some n =>
            if n < 1 ∨ 12 < n then ([⟨400, badDepthBody fd.2⟩], false, thrown)
            else
              match getBestMove resp with
              | Except.error e => ([], true, some e)
              | Except.ok r => ([⟨200, r.toJSON⟩], true, thrown)
  match tryResult with
  | (ws, called, none) => ⟨ws, called⟩
  | (ws, called, some e) =>
      if ws.isEmpty then ⟨ws ++ [⟨500, serverErrorBody e⟩], called⟩ else ⟨ws, called⟩

/-- The depth rejection test of the handler:
`isNaN(depthNumber) || depthNumber < 1 || depthNumber > 12`. -/
def depthRejected (d : String) : Bool :=
  match jsParseInt d with
  | none => true
  | some n => decide (n < 1) || decide (12 < n)

/-- Top-level key list of a JSON object. -/
def objKeys : JSON → List String
  | JSON.obj fields => fields.map Prod.fst
  | _ => []

/-- The conditions `responseSchema` actually checks on an object body: required
fields present with the right types; nothing about additional keys. -/
def analysisShapeOk (fields : List (String × JSON)) : Bool :=
  (match getKey fields "success" with | some (JSON.bool true) => true | _ => false) &&
  (match getKey fields "evaluation" with | some (JSON.num _) => true | _ => false) &&
  (match getKey fields "bestmove" with | some (JSON.str _) => true | _ => false) &&
  (match getKey fields "mate" with
   | some JSON.null => true | some (JSON.num _) => true | _ => false)

/-- Reading back the key just written by `setKey`. -/
theorem getKey_setKey_self (o : List (String × JSON)) (k : String) (v : JSON) :
    getKey (setKey o k v) k = some v := by
  unfold setKey
  by_cases h : o.any (fun p => p.1 = k)
  · rw [if_pos h]
    induction o with
    | nil => simp at h
    | cons hd tl ih =>
        by_cases hk : hd.1 = k
        · simp [getKey, List.find?, hk]
        · simp only [List.any_cons, Bool.or_eq_true] at h
          have h' : tl.any (fun p => p.1 = k) := by
            rcases h with h | h
            · exact absurd (of_decide_eq_true h) hk
            · exact h
          simpa [getKey, List.find?, hk] using ih h'
  · rw [if_neg h]
    induction o with
    | nil => simp [getKey, List.find?]
    | cons hd tl ih =>
        simp only [List.any_cons, Bool.or_eq_true, not_or] at h
        have hk : ¬hd.1 = k := by simpa using h.1
        have := ih (by simpa using h.2)
        simpa [getKey, List.find?, hk] using this

/-- Writing an absent key appends it. -/
theorem setKey_of_getKey_none (o : List (String × JSON)) (k : String) (v : JSON)
    (h : getKey o k = none) : setKey o k v = o ++ [(k, v)] := by
  unfold setKey
  rw [if_neg]
  intro hany
  rw [List.any_eq_true] at hany
  obtain ⟨p, hp, hpk⟩ := hany
  cases hfind : List.find? (fun p => p.1 = k) o with
  | none =>
      rw [List.find?_eq_none] at hfind
      exact hfind p hp hpk
  | some x =>
      rw [getKey, hfind] at h
      simp at h

/-- Each object-valued property of the input shape yields a `queryParams` entry
whose schema is the original one with the `required` flag written. -/
theorem mem_x402GET_queryParams (props : List (String × JSON)) (k : String)
    (fields : List (String × JSON)) (h : (k, JSON.obj fields) ∈ props) :
    (k, JSON.obj (setKey fields "required" (JSON.bool (!hasDefaultKey fields))))
      ∈ (inputSchemaToX402GET props).queryParams := by
  unfold inputSchemaToX402GET
  exact List.mem_filterMap.mpr ⟨(k, JSON.obj fields), h, rfl⟩

/-- When every property schema is an object, the converter keeps exactly the
property names, in order. -/
theorem x402GET_queryParams_keys (props : List (String × JSON))
    (hobj : ∀ p ∈ props, ∃ fs, p.2 = JSON.obj fs) :
    (inputSchemaToX402GET props).queryParams.map Prod.fst = props.map Prod.fst := by
  unfold inputSchemaToX402GET
  induction props with
  | nil => rfl
  | cons hd tl ih =>
      obtain ⟨fs, hfs⟩ := hobj hd (by simp)
      obtain ⟨k0, v0⟩ := hd
      simp only at hfs
      subst hfs
      simpa [List.filterMap_cons] using ih (fun p hp => hobj p (by simp [hp]))

/-- C1: in `inputSchemaToX402GET`, every top-level field whose per-field schema
carries a `default` key (any JSON value, so falsy defaults such as `""` or `0`
included) yields a `queryParams` entry with `required: false`, and every field
without a `default` yields `required: true`. -/
theorem C1_required_from_default_presence (props : List (String × JSON)) (k : String)
    (fields : List (String × JSON)) (h : (k, JSON.obj fields) ∈ props) :
    ∃ out, (k, JSON.obj out) ∈ (inputSchemaToX402GET props).queryParams ∧
      getKey out "required" = some (JSON.bool (!hasDefaultKey fields)) := by
  refine ⟨setKey fields "required" (JSON.bool (!hasDefaultKey fields)),
    mem_x402GET_queryParams props k fields h, ?_⟩
  exact getKey_setKey_self fields "required" (JSON.bool (!hasDefaultKey fields))

/-- C1 witness: a shape with a falsy string default `""`, a falsy numeric
default `0`, and a field with no default, at concrete inputs. -/
theorem C1_required_from_default_presence_witness :
    (∃ out, ("region", JSON.obj out)
        ∈ (inputSchemaToX402GET
            [("region", JSON.obj [("type", JSON.str "string"), ("default", JSON.str "")])]).queryParams ∧
      getKey out "required" = some (JSON.bool false)) ∧
    (∃ out, ("count", JSON.obj out)
        ∈ (inputSchemaToX402GET
            [("count", JSON.obj [("type", JSON.str "number"), ("default", JSON.num 0)])]).queryParams ∧
      getKey out "required" = some (JSON.bool false)) ∧
    (∃ out, ("fen", JSON.obj out)
        ∈ (inputSchemaToX402GET [("fen", JSON.obj [("type", JSON.str "string")])]).queryParams ∧
      getKey out "required" = some (JSON.bool true)) := by
  refine ⟨?_, ?_, ?_⟩
  · simpa using C1_required_from_default_presence
      [("region", JSON.obj [("type", JSON.str "string"), ("default", JSON.str "")])]
      "region" [("type", JSON.str "string"), ("default", JSON.str "")] (by simp)
  · simpa using C1_required_from_default_presence
      [("count", JSON.obj [("type", JSON.str "number"), ("default", JSON.num 0)])]
      "count" [("type", JSON.str "number"), ("default", JSON.num 0)] (by simp)
  · simpa using C1_required_from_default_presence
      [("fen", JSON.obj [("type", JSON.str "string")])]
      "fen" [("type", JSON.str "string")] (by simp)

/-- C7 counterexample: for a field with no declared type and no description,
the GET discovery-descriptor converter actually wired into the app
(`inputSchemaToX402GET`) synthesizes neither `type: "string"` nor a
`"<type> parameter"` description: the resulting entry carries only the
`required` flag.  The described defaulting lives in the legacy converter
`inputSchemaToX402` of the bundled build artifact, shown alongside. -/
theorem C7_counterexample :
    ((inputSchemaToX402GET [("a", JSON.obj [])]).queryParams
        = [("a", JSON.obj [("required", JSON.bool true)])] ∧
      getKey [("required", JSON.bool true)] "type" = none ∧
      getKey [("required", JSON.bool true)] "description" = none) ∧
    (inputSchemaToX402 [("a", JSON.obj [])]).queryParams = [("a", "string parameter")] := by
  decide

/-- C7 amended: the defaulting described by the claim holds of the legacy
converter `inputSchemaToX402` (bundled build artifact), not of
`inputSchemaToX402GET`: there, a field with no truthy `description` is emitted
as `"<type> parameter"` where the type falls back to `"string"` when no truthy
`type` is declared. -/
theorem C7_legacy_type_description_defaults (props : List (String × JSON)) (k : String)
    (fields : List (String × JSON)) (h : (k, JSON.obj fields) ∈ props)
    (hdesc : truthyStr (getKey fields "description") = none) :
    (k, ((truthyStr (getKey fields "type")).getD "string") ++ " parameter")
      ∈ (inputSchemaToX402 props).queryParams := by
  unfold inputSchemaToX402
  refine List.mem_filterMap.mpr ⟨(k, JSON.obj fields), h, ?_⟩
  simp [hdesc]

/-- C7 witness: a typeless field yields `"string parameter"`, a described-less
`number` field yields `"number parameter"`, at concrete inputs. -/
theorem C7_legacy_type_description_defaults_witness :
    ("a", "string parameter") ∈ (inputSchemaToX402 [("a", JSON.obj [])]).queryParams ∧
    ("depth", "number parameter")
      ∈ (inputSchemaToX402 [("depth", JSON.obj [("type", JSON.str "number")])]).queryParams := by
  constructor
  · simpa using C7_legacy_type_description_defaults [("a", JSON.obj [])] "a" [] (by simp) (by decide)
  · simpa using C7_legacy_type_description_defaults
      [("depth", JSON.obj [("type", JSON.str "number")])] "depth"
      [("type", JSON.str "number")] (by simp) (by decide)

/-- C10 counterexample: for a nested-object field whose schema already has a
`required` key (here the JSON-schema required-array, as zod emits for object
fields such as `address_to` in `CreateShirtBody`), the converter does not add
one new field to the original schema: the assignment overwrites the existing
`required` array with the boolean, losing the original constraint. -/
theorem C10_counterexample :
    (inputSchemaToX402GET
        [("address_to", JSON.obj [("type", JSON.str "object"),
                                  ("required", JSON.arr [JSON.str "first_name"])])]).queryParams
      = [("address_to", JSON.obj [("type", JSON.str "object"),
                                  ("required", JSON.bool true)])] ∧
    getKey [("type", JSON.str "object"), ("required", JSON.bool true)] "required"
      ≠ some (JSON.arr [JSON.str "first_name"]) := by
  decide

/-- C10 amended: for shapes whose per-field schemas are all objects,
`queryParams` keeps exactly the top-level property names in order, and each
entry whose schema has no `required` key of its own is the original schema
object with exactly one field appended, the boolean `required` flag; a
pre-existing `required` key is instead overwritten by the flag. -/
theorem C10_keys_and_required_append (props : List (String × JSON))
    (hobj : ∀ p ∈ props, ∃ fs, p.2 = JSON.obj fs) :
    ((inputSchemaToX402GET props).queryParams.map Prod.fst = props.map Prod.fst) ∧
    ∀ k fields, (k, JSON.obj fields) ∈ props → getKey fields "required" = none →
      (k, JSON.obj (fields ++ [("required", JSON.bool (!hasDefaultKey fields))]))
        ∈ (inputSchemaToX402GET props).queryParams := by
  refine ⟨x402GET_queryParams_keys props hobj, ?_⟩
  intro k fields hmem hreq
  have := mem_x402GET_queryParams props k fields hmem
  rwa [setKey_of_getKey_none fields "required" (JSON.bool (!hasDefaultKey fields)) hreq] at this

/-- C10 witness: the two-field chess input shape, concretely. -/
theorem C10_keys_and_required_append_witness :
    ((inputSchemaToX402GET
        [("fen", JSON.obj [("type", JSON.str "string")]),
         ("depth", JSON.obj [("type", JSON.str "string"), ("default", JSON.str "10")])]).queryParams.map
        Prod.fst = ["fen", "depth"]) ∧
    ("fen", JSON.obj [("type", JSON.str "string"), ("required", JSON.bool true)])
      ∈ (inputSchemaToX402GET
          [("fen", JSON.obj [("type", JSON.str "string")]),
           ("depth", JSON.obj [("type", JSON.str "string"), ("default", JSON.str "10")])]).queryParams := by
  have h := C10_keys_and_required_append
    [("fen", JSON.obj [("type", JSON.str "string")]),
     ("depth", JSON.obj [("type", JSON.str "string"), ("default", JSON.str "10")])]
    (by
      intro p hp
      simp only [List.mem_cons, List.not_mem_nil, or_false] at hp
      rcases hp with rfl | rfl <;> exact ⟨_, rfl⟩)
  refine ⟨by simpa using h.1, ?_⟩
  simpa using h.2 "fen" [("type", JSON.str "string")] (by simp) (by decide)

/-- `responseSchema.parse` round-trips its own output. -/
theorem parseAnalysis_toJSON (r : AnalysisResult) : parseAnalysis r.toJSON = some r := by
  obtain ⟨e, b, m⟩ := r
  cases m <;> rfl

/-- A body without a `bestmove` key never validates. -/
theorem parseAnalysis_none_of_no_bestmove (fields : List (String × JSON))
    (h : getKey fields "bestmove" = none) : parseAnalysis (JSON.obj fields) = none := by
  simp only [parseAnalysis]
  cases hs : getKey fields "success" with
  | none => rfl
  | some v =>
      cases v <;> try rfl
      rename_i bv
      cases bv <;> try rfl
      cases he : getKey fields "evaluation" with
      | none => rfl
      | some v2 =>
          cases v2 <;> try rfl
          rw [h]

/-- Validation succeeds exactly when the four required fields are present with
the right types; extra keys play no role. -/
theorem parseAnalysis_isSome_eq_shapeOk (fields : List (String × JSON)) :
    (parseAnalysis (JSON.obj fields)).isSome = analysisShapeOk fields := by
  simp only [parseAnalysis, analysisShapeOk]
  cases getKey fields "success" with
  | none => rfl
  | some v =>
      cases v <;> try rfl
      rename_i bv
      cases bv <;> try rfl
      cases getKey fields "evaluation" with
      | none => rfl
      | some v2 =>
          cases v2 <;> try rfl
          cases getKey fields "bestmove" with
          | none => rfl
          | some v3 =>
              cases v3 <;> try rfl
              cases getKey fields "mate" with
              | none => rfl
              | some v4 => cases v4 <;> rfl

/-- A non-2xx upstream status makes `getBestMove` throw the status-bearing
error. -/
theorem getBestMove_not_ok (resp : HttpResp) (h : respOk resp = false) :
    getBestMove resp = Except.error (JsError.upstreamError resp.status resp.statusText) := by
  unfold getBestMove
  rw [if_pos h]

/-- A 2xx response whose JSON body validates yields that validated result. -/
theorem getBestMove_ok_of_parse (resp : HttpResp) (j : JSON) (r : AnalysisResult)
    (hok : respOk resp = true) (hb : resp.jsonBody = some j) (hp : parseAnalysis j = some r) :
    getBestMove resp = Except.ok r := by
  simp [getBestMove, hok, hb, hp]

/-- A 2xx response whose JSON body fails validation throws a `ZodError`. -/
theorem getBestMove_zodError (resp : HttpResp) (j : JSON)
    (hok : respOk resp = true) (hb : resp.jsonBody = some j) (hp : parseAnalysis j = none) :
    getBestMove resp = Except.error JsError.zodError := by
  simp [getBestMove, hok, hb, hp]

/-- Once the query validates and the depth is accepted, the handler outcome is
fully determined by the upstream dispatch: a thrown error becomes the single
500 write, a validated result the single 200 write, and in either case the
upstream was called (independently of a post-send throw). -/
theorem bestMoveHandler_valid (q : Query) (resp : HttpResp) (st : Bool) (f d : String) (n : Int)
    (hq : inputSchemaParse q = some (f, d)) (hn : jsParseInt d = some n)
    (h1 : 1 ≤ n) (h2 : n ≤ 12) :
    bestMoveHandler q resp st =
      match getBestMove resp with
      | Except.error e => ⟨[⟨500, serverErrorBody e⟩], true⟩
      | Except.ok r => ⟨[⟨200, r.toJSON⟩], true⟩ := by
  have hrange : ¬(n < 1 ∨ 12 < n) := by omega
  cases hg : getBestMove resp with
  | error e => simp [bestMoveHandler, hq, hn, hrange, hg]
  | ok r => cases st <;> simp [bestMoveHandler, hq, hn, hrange, hg]

/-- A failed `safeParse` writes the single 400 and the upstream is not called. -/
theorem bestMoveHandler_schema_fail (q : Query) (resp : HttpResp) (st : Bool)
    (hq : inputSchemaParse q = none) :
    bestMoveHandler q resp st = ⟨[⟨400, badParamsBody q⟩], false⟩ := by
  cases st <;> simp [bestMoveHandler, hq]

/-- A depth that `parseInt` rejects (NaN or out of [1,12]) writes the single
400 and the upstream is not called. -/
theorem bestMoveHandler_depth_fail (q : Query) (resp : HttpResp) (st : Bool) (f d : String)
    (hq : inputSchemaParse q = some (f, d)) (hrej : depthRejected d = true) :
    bestMoveHandler q resp st = ⟨[⟨400, badDepthBody d⟩], false⟩ := by
  unfold depthRejected at hrej
  cases hn : jsParseInt d with
  | none => cases st <;> simp [bestMoveHandler, hq, hn]
  | some n =>
      rw [hn] at hrej
      have hr : n < 1 ∨ 12 < n := by simpa using hrej
      cases st <;> simp [bestMoveHandler, hq, hn, hr]

/-- C2 counterexample: the depth string `"1x"` is non-numeric, yet JS
`parseInt("1x")` yields `1`, so the handler accepts it, calls the upstream, and
can answer 200 — contradicting the claim that every non-numeric depth string
gets a 400 with no upstream call. -/
theorem C2_counterexample :
    (bestMoveHandler ⟨some "rnbqkbnr w KQkq - 0 1", some "1x"⟩
        ⟨200, "OK", some (AnalysisResult.toJSON ⟨1, "e2e4", none⟩)⟩ false).upstreamCalled = true ∧
    (bestMoveHandler ⟨some "rnbqkbnr w KQkq - 0 1", some "1x"⟩
        ⟨200, "OK", some (AnalysisResult.toJSON ⟨1, "e2e4", none⟩)⟩ false).writes
      = [⟨200, AnalysisResult.toJSON ⟨1, "e2e4", none⟩⟩] := by
  decide

/-- C2 amended: for every request whose `depth` parameter is rejected by the
handler's `parseInt`-based check — `parseInt(depth)` is NaN, below 1 or above
12 — the handler writes exactly one 400 response and never calls the upstream.
(Strings with a numeric prefix, e.g. `"1x"`, parse to an in-range integer and
are accepted, so "every non-numeric string" does not hold of the code.)  A
depth failing the zod length bound, or a missing `fen`, also yields a 400
without an upstream call, via the schema-failure branch. -/
theorem C2_depth_rejected_400_no_upstream (q : Query) (resp : HttpResp) (st : Bool) (d : String)
    (hd : q.depth = some d) (hrej : depthRejected d = true) :
    (∃ b, (bestMoveHandler q resp st).writes = [⟨400, b⟩]) ∧
      (bestMoveHandler q resp st).upstreamCalled = false := by
  obtain ⟨fq, dq⟩ := q
  change dq = some d at hd
  subst hd
  cases fq with
  | none =>
      rw [bestMoveHandler_schema_fail ⟨none, some d⟩ resp st rfl]
      exact ⟨⟨_, rfl⟩, rfl⟩
  | some f =>
      by_cases hlen : 1 ≤ d.length ∧ d.length ≤ 2
      · have hq : inputSchemaParse ⟨some f, some d⟩ = some (f, d) := by
          simp [inputSchemaParse, hlen]
        rw [bestMoveHandler_depth_fail ⟨some f, some d⟩ resp st f d hq hrej]
        exact ⟨⟨_, rfl⟩, rfl⟩
      · have hq : inputSchemaParse ⟨some f, some d⟩ = none := by
          simp [inputSchemaParse, hlen]
        rw [bestMoveHandler_schema_fail ⟨some f, some d⟩ resp st hq]
        exact ⟨⟨_, rfl⟩, rfl⟩

/-- C2 witness: depth `"13"` at a concrete request and upstream oracle. -/
theorem C2_depth_rejected_400_no_upstream_witness :
    (∃ b, (bestMoveHandler ⟨some "8/8/8/8/8/8/8/8 w - - 0 1", some "13"⟩
        ⟨200, "OK", none⟩ false).writes = [⟨400, b⟩]) ∧
      (bestMoveHandler ⟨some "8/8/8/8/8/8/8/8 w - - 0 1", some "13"⟩
        ⟨200, "OK", none⟩ false).upstreamCalled = false :=
  C2_depth_rejected_400_no_upstream ⟨some "8/8/8/8/8/8/8/8 w - - 0 1", some "13"⟩
    ⟨200, "OK", none⟩ false "13" rfl (by decide)

/-- C3: when the query validates, the depth is in range and the upstream
answers HTTP 200 with a JSON object body lacking `bestmove`, strict response
validation throws and the handler writes exactly one 500 — never a 200. -/
theorem C3_missing_bestmove_500 (q : Query) (resp : HttpResp) (st : Bool) (f d : String) (n : Int)
    (fields : List (String × JSON))
    (hq : inputSchemaParse q = some (f, d)) (hn : jsParseInt d = some n)
    (h1 : 1 ≤ n) (h2 : n ≤ 12)
    (hst : resp.status = 200) (hb : resp.jsonBody = some (JSON.obj fields))
    (hbm : getKey fields "bestmove" = none) :
    (bestMoveHandler q resp st).writes = [⟨500, serverErrorBody JsError.zodError⟩] := by
  have hok : respOk resp = true := by simp [respOk, hst]
  have hg := getBestMove_zodError resp (JSON.obj fields) hok hb
    (parseAnalysis_none_of_no_bestmove fields hbm)
  rw [bestMoveHandler_valid q resp st f d n hq hn h1 h2, hg]

/-- C3 witness: an upstream 200 whose body has everything but `bestmove`. -/
theorem C3_missing_bestmove_500_witness :
    (bestMoveHandler ⟨some "8/8/8/8/8/8/8/8 w - - 0 1", some "10"⟩
        ⟨200, "OK", some (JSON.obj [("success", JSON.bool true), ("evaluation", JSON.num 1),
          ("mate", JSON.null)])⟩ false).writes
      = [⟨500, serverErrorBody JsError.zodError⟩] :=
  C3_missing_bestmove_500 ⟨some "8/8/8/8/8/8/8/8 w - - 0 1", some "10"⟩
    ⟨200, "OK", some (JSON.obj [("success", JSON.bool true), ("evaluation", JSON.num 1),
      ("mate", JSON.null)])⟩ false
    "8/8/8/8/8/8/8/8 w - - 0 1" "10" 10
    [("success", JSON.bool true), ("evaluation", JSON.num 1), ("mate", JSON.null)]
    rfl (by decide) (by decide) (by decide) rfl rfl (by decide)

/-- C4: when the query validates, the depth is in range and the upstream
answers a non-2xx status, the handler writes exactly one 500 whose `message`
contains the upstream status code as a substring. -/
theorem C4_upstream_error_status_in_message (q : Query) (resp : HttpResp) (st : Bool)
    (f d : String) (n : Int)
    (hq : inputSchemaParse q = some (f, d)) (hn : jsParseInt d = some n)
    (h1 : 1 ≤ n) (h2 : n ≤ 12) (hbad : respOk resp = false) :
    ∃ m, (bestMoveHandler q resp st).writes
        = [⟨500, JSON.obj [("error", JSON.str "Internal server error"),
                           ("message", JSON.str m)]⟩]
      ∧ ∃ pre post, m = pre ++ (toString resp.status ++ post) := by
  rw [bestMoveHandler_valid q resp st f d n hq hn h1 h2, getBestMove_not_ok resp hbad]
  exact ⟨_, rfl, "Stockfish API returned ", ": " ++ resp.statusText, rfl⟩

/-- C4 witness: an upstream 503, with the substring `"503"` exhibited. -/
theorem C4_upstream_error_status_in_message_witness :
    ∃ m, (bestMoveHandler ⟨some "8/8/8/8/8/8/8/8 w - - 0 1", some "10"⟩
        ⟨503, "Service Unavailable", none⟩ false).writes
        = [⟨500, JSON.obj [("error", JSON.str "Internal server error"),
                           ("message", JSON.str m)]⟩]
      ∧ ∃ pre post, m = pre ++ ("503" ++ post) :=
  C4_upstream_error_status_in_message ⟨some "8/8/8/8/8/8/8/8 w - - 0 1", some "10"⟩
    ⟨503, "Service Unavailable", none⟩ false "8/8/8/8/8/8/8/8 w - - 0 1" "10" 10
    rfl (by decide) (by decide) (by decide) (by decide)

/-- C5: when the query validates, the depth is in range and the upstream
answers 2xx with a body that is exactly the Analysis Result shape, the handler
writes exactly one 200 carrying that body unchanged, and the upstream was
called. -/
theorem C5_success_passthrough (q : Query) (resp : HttpResp) (st : Bool) (f d : String) (n : Int)
    (r : AnalysisResult)
    (hq : inputSchemaParse q = some (f, d)) (hn : jsParseInt d = some n)
    (h1 : 1 ≤ n) (h2 : n ≤ 12)
    (hok : respOk resp = true) (hb : resp.jsonBody = some r.toJSON) :
    (bestMoveHandler q resp st).writes = [⟨200, r.toJSON⟩] ∧
      (bestMoveHandler q resp st).upstreamCalled = true := by
  have hg := getBestMove_ok_of_parse resp r.toJSON r hok hb (parseAnalysis_toJSON r)
  rw [bestMoveHandler_valid q resp st f d n hq hn h1 h2, hg]
  exact ⟨rfl, rfl⟩

/-- C5 witness: a fractional evaluation and a mate-in-3 body, passed through. -/
theorem C5_success_passthrough_witness :
    (bestMoveHandler ⟨some "8/8/8/8/8/8/8/8 w - - 0 1", some "12"⟩
        ⟨200, "OK", some (AnalysisResult.toJSON ⟨3/2, "e7e5", some 3⟩)⟩ false).writes
      = [⟨200, AnalysisResult.toJSON ⟨3/2, "e7e5", some 3⟩⟩] ∧
    (bestMoveHandler ⟨some "8/8/8/8/8/8/8/8 w - - 0 1", some "12"⟩
        ⟨200, "OK", some (AnalysisResult.toJSON ⟨3/2, "e7e5", some 3⟩)⟩ false).upstreamCalled
      = true :=
  C5_success_passthrough ⟨some "8/8/8/8/8/8/8/8 w - - 0 1", some "12"⟩
    ⟨200, "OK", some (AnalysisResult.toJSON ⟨3/2, "e7e5", some 3⟩)⟩ false
    "8/8/8/8/8/8/8/8 w - - 0 1" "12" 12 ⟨3/2, "e7e5", some 3⟩
    rfl (by decide) (by decide) (by decide) (by decide) rfl

/-- C6 counterexample: an upstream body carrying the four required fields plus
an extra `junk` field does not exactly match the Analysis Result shape (its key
set differs), yet the request does not fail: zod strips the extra key and the
handler answers 200. -/
theorem C6_counterexample :
    (objKeys (JSON.obj [("success", JSON.bool true), ("evaluation", JSON.num 1),
        ("bestmove", JSON.str "e2e4"), ("mate", JSON.null), ("junk", JSON.num 42)])
      ≠ ["success", "evaluation", "bestmove", "mate"]) ∧
    (bestMoveHandler ⟨some "8/8/8/8/8/8/8/8 w - - 0 1", some "10"⟩
        ⟨200, "OK", some (JSON.obj [("success", JSON.bool true), ("evaluation", JSON.num 1),
          ("bestmove", JSON.str "e2e4"), ("mate", JSON.null), ("junk", JSON.num 42)])⟩
        false).writes
      = [⟨200, AnalysisResult.toJSON ⟨1, "e2e4", none⟩⟩] := by
  decide

/-- C6 amended: on a validated request with an upstream 2xx JSON object body,
validation succeeds exactly when the four required fields are present with the
right types (`success` literally `true`, `evaluation` a number, `bestmove` a
string — note the lowercase spelling in the code — `mate` null or a number);
on failure the handler writes the single 500, on success the single 200 with
the validated (extra-keys-stripped) payload.  Extra fields do not make the
request fail. -/
theorem C6_shape_validation (q : Query) (resp : HttpResp) (st : Bool) (f d : String) (n : Int)
    (fields : List (String × JSON))
    (hq : inputSchemaParse q = some (f, d)) (hn : jsParseInt d = some n)
    (h1 : 1 ≤ n) (h2 : n ≤ 12)
    (hok : respOk resp = true) (hb : resp.jsonBody = some (JSON.obj fields)) :
    ((parseAnalysis (JSON.obj fields)).isSome = analysisShapeOk fields) ∧
    (analysisShapeOk fields = false →
      (bestMoveHandler q resp st).writes = [⟨500, serverErrorBody JsError.zodError⟩]) ∧
    (∀ r, parseAnalysis (JSON.obj fields) = some r →
      (bestMoveHandler q resp st).writes = [⟨200, r.toJSON⟩]) := by
  refine ⟨parseAnalysis_isSome_eq_shapeOk fields, ?_, ?_⟩
  · intro hbad
    have hpn : parseAnalysis (JSON.obj fields) = none := by
      have hsome := parseAnalysis_isSome_eq_shapeOk fields
      rw [hbad] at hsome
      exact Option.not_isSome_iff_eq_none.mp (by simp [hsome])
    rw [bestMoveHandler_valid q resp st f d n hq hn h1 h2,
      getBestMove_zodError resp (JSON.obj fields) hok hb hpn]
  · intro r hr
    rw [bestMoveHandler_valid q resp st f d n hq hn h1 h2,
      getBestMove_ok_of_parse resp (JSON.obj fields) r hok hb hr]

/-- C6 witness: a body with a wrong-typed `evaluation` is rejected with a 500,
at concrete inputs. -/
theorem C6_shape_validation_witness :
    analysisShapeOk [("success", JSON.bool true), ("evaluation", JSON.str "oops"),
      ("bestmove", JSON.str "e2e4"), ("mate", JSON.null)] = false ∧
    (bestMoveHandler ⟨some "8/8/8/8/8/8/8/8 w - - 0 1", some "10"⟩
        ⟨204, "No Content", some (JSON.obj [("success", JSON.bool true),
          ("evaluation", JSON.str "oops"), ("bestmove", JSON.str "e2e4"),
          ("mate", JSON.null)])⟩ false).writes
      = [⟨500, serverErrorBody JsError.zodError⟩] :=
  ⟨by decide,
    (C6_shape_validation ⟨some "8/8/8/8/8/8/8/8 w - - 0 1", some "10"⟩
      ⟨204, "No Content", some (JSON.obj [("success", JSON.bool true),
        ("evaluation", JSON.str "oops"), ("bestmove", JSON.str "e2e4"),
        ("mate", JSON.null)])⟩ false
      "8/8/8/8/8/8/8/8 w - - 0 1" "10" 10
      [("success", JSON.bool true), ("evaluation", JSON.str "oops"),
        ("bestmove", JSON.str "e2e4"), ("mate", JSON.null)]
      rfl (by decide) (by decide) (by decide) (by decide) rfl).2.1 (by decide)⟩

/-- C8: on every execution path — schema failure, depth rejection, upstream
throw, success, and a send that throws after the bytes were written
(`sendThrows`) — the handler writes at most one HTTP response. -/
theorem C8_at_most_one_response (q : Query) (resp : HttpResp) (st : Bool) :
    (bestMoveHandler q resp st).writes.length ≤ 1 := by
  cases hq : inputSchemaParse q with
  | none => cases st <;> simp [bestMoveHandler, hq]
  | some fd =>
      cases hn : jsParseInt fd.2 with
      | none => cases st <;> simp [bestMoveHandler, hq, hn]
      | some n =>
          by_cases hr : n < 1 ∨ 12 < n
          · cases st <;> simp [bestMoveHandler, hq, hn, hr]
          · cases hg : getBestMove resp with
            | error e => cases st <;> simp [bestMoveHandler, hq, hn, hr, hg]
            | ok r => cases st <;> simp [bestMoveHandler, hq, hn, hr, hg]

/-- C9: every accepted upstream body produces a 200 payload holding exactly the
four schema keys `success`, `evaluation`, `bestmove`, `mate` — whatever extra
keys the body carried are gone. -/
theorem C9_payload_keys_exact (q : Query) (resp : HttpResp) (st : Bool) (f d : String) (n : Int)
    (b : JSON) (r : AnalysisResult)
    (hq : inputSchemaParse q = some (f, d)) (hn : jsParseInt d = some n)
    (h1 : 1 ≤ n) (h2 : n ≤ 12)
    (hok : respOk resp = true) (hb : resp.jsonBody = some b)
    (hp : parseAnalysis b = some r) :
    (bestMoveHandler q resp st).writes = [⟨200, r.toJSON⟩] ∧
      objKeys r.toJSON = ["success", "evaluation", "bestmove", "mate"] := by
  have hg := getBestMove_ok_of_parse resp b r hok hb hp
  rw [bestMoveHandler_valid q resp st f d n hq hn h1 h2, hg]
  refine ⟨rfl, ?_⟩
  obtain ⟨e, bm, m⟩ := r
  cases m <;> rfl

/-- C9 witness: an upstream body with two extra keys; the response payload has
exactly the four schema keys. -/
theorem C9_payload_keys_exact_witness :
    (bestMoveHandler ⟨some "8/8/8/8/8/8/8/8 w - - 0 1", some "10"⟩
        ⟨200, "OK", some (JSON.obj [("success", JSON.bool true), ("evaluation", JSON.num 2),
          ("bestmove", JSON.str "d2d4"), ("mate", JSON.num 5), ("ponder", JSON.str "d7d5"),
          ("debug", JSON.obj [])])⟩ false).writes
      = [⟨200, AnalysisResult.toJSON ⟨2, "d2d4", some 5⟩⟩] ∧
      objKeys (AnalysisResult.toJSON ⟨2, "d2d4", some 5⟩)
        = ["success", "evaluation", "bestmove", "mate"] :=
  C9_payload_keys_exact ⟨some "8/8/8/8/8/8/8/8 w - - 0 1", some "10"⟩
    ⟨200, "OK", some (JSON.obj [("success", JSON.bool true), ("evaluation", JSON.num 2),
      ("bestmove", JSON.str "d2d4"), ("mate", JSON.num 5), ("ponder", JSON.str "d7d5"),
      ("debug", JSON.obj [])])⟩ false
    "8/8/8/8/8/8/8/8 w - - 0 1" "10" 10
    (JSON.obj [("success", JSON.bool true), ("evaluation", JSON.num 2),
      ("bestmove", JSON.str "d2d4"), ("mate", JSON.num 5), ("ponder", JSON.str "d7d5"),
      ("debug", JSON.obj [])])
    ⟨2, "d2d4", some 5⟩
    rfl (by decide) (by decide) (by decide) (by decide) rfl (by decide)
